import Mathlib

/-!
Shallow embedding of `src/index.js` of bitfocus/node-infinitton-idisplay.

The driver talks to a 15-key Infinitton HID panel.  The embedding models

* JavaScript numbers as rationals plus NaN (`JSNum`) — every numeric value
  occurring in the driver (key indices, channel values, brightness, byte
  offsets) is either an exactly representable double or NaN, so rational
  arithmetic with an explicit NaN case matches the source semantics on all
  reachable values;
* byte buffers as `List Nat` (each entry a byte value);
* thrown exceptions as `JSError`;
* transport traffic as a list of `DeviceAction`s; each public codec
  operation returns the actions it performed together with the error it
  raised, if any (an action performed before a throw stays in the list,
  mirroring the fact that a JavaScript throw does not roll back I/O).
-/

namespace Infinitton

/-- A JavaScript number: an exact rational, or NaN. -/
inductive JSNum where
  | num (q : ℚ)
  | nan
deriving DecidableEq

/-- JavaScript `+` on numbers: NaN propagates. -/
def jsAdd : JSNum → JSNum → JSNum
  | .num a, .num b => .num (a + b)
  | _, _ => .nan

/-- JavaScript `*` on numbers: NaN propagates. -/
def jsMul : JSNum → JSNum → JSNum
  | .num a, .num b => .num (a * b)
  | _, _ => .nan

/-- JavaScript `<` on numbers: any comparison involving NaN is false. -/
def jsLtb : JSNum → JSNum → Bool
  | .num a, .num b => decide (a < b)
  | _, _ => false

/-- JavaScript `>` on numbers: any comparison involving NaN is false. -/
def jsGtb : JSNum → JSNum → Bool
  | .num a, .num b => decide (b < a)
  | _, _ => false

/-- Truncation toward zero, as JavaScript's ToInteger does. -/
def jsTrunc (q : ℚ) : ℤ := if 0 ≤ q then ⌊q⌋ else ⌈q⌉

/-- Coercion of a JavaScript number to a byte, as performed by
`Buffer.from([...])` (ToUint8: NaN becomes 0, otherwise truncate toward
zero and reduce mod 256). -/
def toByte : JSNum → Nat
  | .nan => 0
  | .num q => (jsTrunc q % 256).toNat

/-- Errors thrown by the driver: `TypeError` from the RGB / key-index
checks, `RangeError` from the buffer-length and brightness checks (and
from out-of-range buffer reads), `ReferenceError` from evaluating an
undeclared identifier in strict mode. -/
inductive JSError where
  | typeError
  | rangeError
  | referenceError
deriving DecidableEq

/-- The validation errors: those raised by the explicit argument checks
(`TypeError` and `RangeError`), as opposed to a `ReferenceError` raised
mid-encoding. -/
def JSError.isValidation : JSError → Bool
  | .typeError => true
  | .rangeError => true
  | .referenceError => false

/-- One transport interaction: an output-report write or a feature report. -/
inductive DeviceAction where
  | write (packet : List Nat)
  | sendFeatureReport (report : List Nat)
deriving DecidableEq

/-- `Infinitton.checkRGBValue` (src/index.js:51): throws `TypeError`
unless `0 ≤ value ≤ 255` under JavaScript comparison. -/
def checkRGBValue (value : JSNum) : Except JSError Unit :=
  if jsLtb value (.num 0) || jsGtb value (.num 255) then .error .typeError else .ok ()

/-- `Infinitton.checkValidKeyIndex` (src/index.js:63): throws `TypeError`
unless `0 ≤ keyIndex ≤ 14` under JavaScript comparison. -/
def checkValidKeyIndex (keyIndex : JSNum) : Except JSError Unit :=
  if jsLtb keyIndex (.num 0) || jsGtb keyIndex (.num 14) then .error .typeError else .ok ()

/-- Run a sequence of checks in order; the first failure aborts the
operation with no actions performed, otherwise the body's result stands. -/
def seqChecks : List (Except JSError Unit) → List DeviceAction × Option JSError →
    List DeviceAction × Option JSError
  | [], k => k
  | c :: cs, k =>
    match c with
    | .error e => ([], some e)
    | .ok _ => seqChecks cs k

/-- `Buffer.alloc(n, pat)`: a buffer of `n` bytes filled with the pattern
`pat` repeated (truncated at the end if `pat.length` does not divide `n`). -/
def allocPattern (n : Nat) (pat : List Nat) : List Nat :=
  (List.range n).map (fun i => pat.getD (i % pat.length) 0)

/-- The fixed 71-byte page-1 header (src/index.js:288). -/
def page1Header : List Nat :=
  [0x02, 0x00, 0x00, 0x00, 0x00, 0x40, 0x1f, 0x00, 0x00, 0x55, 0xaa, 0xaa, 0x55, 0x11, 0x22, 0x33,
   0x44, 0x42, 0x4d, 0xf6, 0x3c, 0x00, 0x00, 0x00, 0x00, 0x00, 0x00, 0x36, 0x00, 0x00, 0x00, 0x28,
   0x00, 0x00, 0x00, 0x48, 0x00, 0x00, 0x00, 0x48, 0x00, 0x00, 0x00, 0x01, 0x00, 0x18, 0x00, 0x00,
   0x00, 0x00, 0x00, 0xc0, 0x3c, 0x00, 0x00, 0x13, 0x0b, 0x00, 0x00, 0x13, 0x0b, 0x00, 0x00, 0x00,
   0x00, 0x00, 0x00, 0x00, 0x00, 0x00, 0x00]

/-- The fixed 17-byte page-2 header (src/index.js:313). -/
def page2Header : List Nat :=
  [0x02, 0x40, 0x1f, 0x00, 0x00, 0xb6, 0x1d, 0x00, 0x00, 0x55, 0xaa, 0xaa, 0x55, 0x11, 0x22, 0x33, 0x44]

/-- Every outbound page packet is exactly 8017 bytes (src/index.js:12). -/
def PAGE_PACKET_SIZE : Nat := 8017

/-- Assemble one page packet: `Buffer.alloc(8017)`, copy the header to
offset 0, copy `min(8017 - header.length, payload.length)` payload bytes
after it; the rest stays zero (src/index.js:296 and 317). -/
def mkPacket (header payload : List Nat) : List Nat :=
  let body := payload.take (PAGE_PACKET_SIZE - header.length)
  header ++ body ++ List.replicate (PAGE_PACKET_SIZE - header.length - body.length) 0

/-- The 34-byte commit feature report (src/index.js:270); its 6th byte is
`keyIndex + 1` coerced to a byte by `Buffer.from`. -/
def featureCmd (keyIndex : JSNum) : List Nat :=
  [0, 0x12, 0x01, 0x00, 0x00, toByte (jsAdd keyIndex (.num 1)), 0x00, 0x00,
   0x00, 0x00, 0x00, 0x00, 0x00, 0x00, 0x00, 0x00,
   0x00, 0xf6, 0x3c, 0x00, 0x00, 0x00, 0x00, 0x00,
   0x00, 0x00, 0x00, 0x00, 0x00, 0x00, 0x00, 0x00,
   0x00, 0x00]

/-- The two page payloads cut out of a device-order pixel buffer:
`pixels.slice(0, 7946)` and `pixels.slice(7946, 15552)`
(src/index.js:265-266). -/
def writePagePayloads (pixels : List Nat) : List Nat × List Nat :=
  (pixels.take 7946, (pixels.drop 7946).take (15552 - 7946))

/-- `_writePixelData` (src/index.js:264): write the page-1 packet, the
page-2 packet, then the commit feature report. -/
def writePixelData (keyIndex : JSNum) (pixels : List Nat) : List DeviceAction :=
  let p := writePagePayloads pixels
  [.write (mkPacket page1Header p.1),
   .write (mkPacket page2Header p.2),
   .sendFeatureReport (featureCmd keyIndex)]

/-- `fillColor` (src/index.js:138): check the key index and the three
channels, then write `Buffer.alloc(15552, Buffer.from([b, g, r]))`. -/
def fillColor (keyIndex r g b : JSNum) : List DeviceAction × Option JSError :=
  seqChecks [checkValidKeyIndex keyIndex, checkRGBValue r, checkRGBValue g, checkRGBValue b]
    (writePixelData keyIndex (allocPattern 15552 [toByte b, toByte g, toByte r]), none)

/-- `clearKey` (src/index.js:220): check the key index, then write a
zero-filled 15552-byte buffer. -/
def clearKey (keyIndex : JSNum) : List DeviceAction × Option JSError :=
  seqChecks [checkValidKeyIndex keyIndex]
    (writePixelData keyIndex (List.replicate 15552 0), none)

/-- `setBrightness` (src/index.js:243): `RangeError` unless
`0 ≤ percentage ≤ 100` under JavaScript comparison, otherwise one feature
report `[0x00, 0x11, percentage]`. -/
def setBrightness (percentage : JSNum) : List DeviceAction × Option JSError :=
  if jsLtb percentage (.num 0) || jsGtb percentage (.num 100) then ([], some .rangeError)
  else ([.sendFeatureReport [0x00, 0x11, toByte percentage]], none)

/-- `Buffer.readUInt8` with a checked offset: the offset must be an
integer within the buffer, otherwise Node throws a `RangeError`
(unreachable in this driver, see `y2Lookup`). -/
def readUInt8 (buf : List Nat) (off : JSNum) : Except JSError Nat :=
  match off with
  | .nan => .error .rangeError
  | .num q =>
    if q.den = 1 ∧ 0 ≤ q.num ∧ q.num < (buf.length : ℤ) then .ok (buf.getD q.num.toNat 0)
    else .error .rangeError

/-- The identifier `y2` used at src/index.js:198
(`const srcOffset = y2 * stride + offset + x2 * 3`) is never declared
anywhere in the file; under `'use strict'` evaluating it throws a
`ReferenceError`. -/
def y2Lookup : Except JSError JSNum := .error .referenceError

/-- One iteration of the inner pixel loop of `_fillImageInner`
(src/index.js:196-208): compute the mirrored source offset (which
evaluates the undeclared `y2`), read the three channels, write them in
blue-green-red order. -/
def innerLoopBody (buf : List Nat) (stride offset : JSNum) (y bbLen : Nat) (bb : List Nat)
    (x : Nat) : Except JSError (List Nat) := do
  let rowOffset := 72 * 3 * y
  let x2 := 72 - x - 1
  let y2 ← y2Lookup
  let srcOffset := jsAdd (jsAdd (jsMul y2 stride) offset) (.num ((x2 * 3 : ℕ) : ℚ))
  let red ← readUInt8 buf srcOffset
  let green ← readUInt8 buf (jsAdd srcOffset (.num 1))
  let blue ← readUInt8 buf (jsAdd srcOffset (.num 2))
  let targetOffset := rowOffset + x * 3
  let _ := bbLen
  pure (((bb.set targetOffset blue).set (targetOffset + 1) green).set (targetOffset + 2) red)

/-- The double pixel loop of `_fillImageInner` (src/index.js:192-209),
starting from `Buffer.alloc(15552)`. -/
def innerLoop (buf : List Nat) (stride offset : JSNum) : Except JSError (List Nat) :=
  (List.range 72).foldlM
    (fun bb y => (List.range 72).foldlM (innerLoopBody buf stride offset y 15552) bb)
    (List.replicate 15552 0)

/-- `_fillImageInner` (src/index.js:191): run the pixel loop, then hand
the device-order buffer to `_writePixelData`. -/
def fillImageInner (keyIndex : JSNum) (buf : List Nat) (stride offset : JSNum) :
    List DeviceAction × Option JSError :=
  match innerLoop buf stride offset with
  | .error e => ([], some e)
  | .ok byteBuffer => (writePixelData keyIndex byteBuffer, none)

/-- `fillImage` (src/index.js:155): check the key index, then require the
buffer length to be exactly 15552, then run `_fillImageInner` with stride
`72 * 3` and offset 0. -/
def fillImage (keyIndex : JSNum) (imageBuffer : List Nat) : List DeviceAction × Option JSError :=
  seqChecks [checkValidKeyIndex keyIndex]
    (if imageBuffer.length ≠ 15552 then ([], some .rangeError)
     else fillImageInner keyIndex imageBuffer (.num (72 * 3)) (.num 0))

/-- `this.ICON_SIZE` as read at src/index.js:179: `ICON_SIZE` is a static
getter on the class, not an instance property, so the instance read
yields `undefined`. -/
def instanceIconSize : Option ℚ := none

/-- ToNumber as applied by arithmetic: `undefined` converts to NaN. -/
def toNumber : Option ℚ → JSNum
  | none => .nan
  | some q => .num q

/-- One body of the panel loop (src/index.js:178-187): key
`index = row * 5 + column`, source offset
`stride * row * this.ICON_SIZE + column * 216`; a previously thrown error
aborts the remaining iterations. -/
def panelStep (buf : List Nat) (acc : List DeviceAction × Option JSError) (row column : Nat) :
    List DeviceAction × Option JSError :=
  match acc.2 with
  | some _ => acc
  | none =>
    let index := row * 5 + column
    let rowOffset := jsMul (jsMul (.num 1080) (.num (row : ℚ))) (toNumber instanceIconSize)
    let colOffset : JSNum := .num ((column * 216 : ℕ) : ℚ)
    let r := fillImageInner (.num (index : ℚ)) buf (.num 1080) (jsAdd rowOffset colOffset)
    (acc.1 ++ r.1, r.2)

/-- `fillPanelImage` (src/index.js:170): require length `15552 * 15`,
then loop rows 0..2 and columns 0..4 invoking `_fillImageInner` per key. -/
def fillPanelImage (imageBuffer : List Nat) : List DeviceAction × Option JSError :=
  if imageBuffer.length ≠ 15552 * 15 then ([], some .rangeError)
  else
    (List.range 3).foldl
      (fun acc row => (List.range 5).foldl (fun acc2 column => panelStep imageBuffer acc2 row column) acc)
      ([], none)

/-- A stored key-state entry.  The state array is initialized with the
boolean `false` (src/index.js:87) but `keyIsPressed` stores the raw
masked number afterwards, so an entry is either a boolean or a number. -/
inductive KeyVal where
  | bval (b : Bool)
  | nval (n : Nat)
deriving DecidableEq

/-- `this.keyState = new Array(15).fill(false)` (src/index.js:87). -/
def initKeyState : List KeyVal := List.replicate 15 (.bval false)

/-- An emitted key event. -/
inductive Event where
  | down (keyIndex : Nat)
  | up (keyIndex : Nat)
deriving DecidableEq

/-- The key index an event is about. -/
def Event.key : Event → Nat
  | .down k => k
  | .up k => k

/-- `keyIsPressed` (src/index.js:89): `keyPressed` is the raw masked
number; `stateChanged` is the strict (`!==`) comparison against the
stored entry, so a number never equals the initial boolean `false`;
on change the raw number is stored and one event is emitted, `down` if
the number is truthy (nonzero), `up` otherwise. -/
def keyIsPressed (keyIndex : Nat) (keyPressed : Nat) (st : List KeyVal) :
    List KeyVal × List Event :=
  if KeyVal.nval keyPressed ≠ st.getD keyIndex (.bval false) then
    (st.set keyIndex (.nval keyPressed),
     [if keyPressed ≠ 0 then Event.down keyIndex else Event.up keyIndex])
  else (st, [])

/-- Read byte `i` of an inbound report.  An out-of-bounds `Buffer` index
yields `undefined`, and `undefined & mask` evaluates to 0, so a missing
byte behaves exactly like the byte 0. -/
def byteAt (data : List Nat) (i : Nat) : Nat := data.getD i 0

/-- The fifteen `keyIsPressed` calls of the data handler
(src/index.js:101-123), in source order: each entry is
(key index, report byte index, bit mask). -/
def scanOrder : List (Nat × Nat × Nat) :=
  [(4, 1, 0x10), (3, 1, 0x08), (2, 1, 0x04), (1, 1, 0x02), (0, 1, 0x01),
   (9, 2, 0x02), (8, 2, 0x01), (7, 1, 0x80), (6, 1, 0x40), (5, 1, 0x20),
   (14, 2, 0x40), (13, 2, 0x20), (12, 2, 0x10), (11, 2, 0x08), (10, 2, 0x04)]

/-- Run a list of `keyIsPressed` calls in order, threading the state and
concatenating the emitted events. -/
def handleGo (data : List Nat) : List (Nat × Nat × Nat) → List KeyVal → List KeyVal × List Event
  | [], st => (st, [])
  | e :: rest, st =>
    let r := keyIsPressed e.1 (byteAt data e.2.1 &&& e.2.2) st
    let next := handleGo data rest r.1
    (next.1, r.2 ++ next.2)

/-- The `data` handler (src/index.js:101-123): the fifteen
`keyIsPressed` calls of `scanOrder` applied to one inbound report. -/
def handleData (data : List Nat) (st : List KeyVal) : List KeyVal × List Event :=
  handleGo data scanOrder st

/-- The report byte holding a key's bit (from the handler lines). -/
def scanByte (k : Nat) : Nat := if k ≤ 7 then 1 else 2

/-- The bit mask holding a key's state (from the handler lines). -/
def scanMask (k : Nat) : Nat :=
  match k with
  | 0 => 0x01 | 1 => 0x02 | 2 => 0x04 | 3 => 0x08 | 4 => 0x10
  | 5 => 0x20 | 6 => 0x40 | 7 => 0x80 | 8 => 0x01 | 9 => 0x02
  | 10 => 0x04 | 11 => 0x08 | 12 => 0x10 | 13 => 0x20 | 14 => 0x40
  | _ => 0

/-- The raw masked number the handler passes to `keyIsPressed` for key
`k` on report `data`. -/
def maskedVal (data : List Nat) (k : Nat) : Nat := byteAt data (scanByte k) &&& scanMask k

/-- A steady key state with every entry holding the number 0: the state
the tracker reaches after one all-released report. -/
def zeroNumState : List KeyVal := List.replicate 15 (.nval 0)

deriving instance DecidableEq for Except

/-! Helper lemmas. -/

theorem listGetD_set_ne {α : Type} (l : List α) (i j : Nat) (x d : α) (h : i ≠ j) :
    (l.set i x).getD j d = l.getD j d := by
  induction l generalizing i j with
  | nil => simp
  | cons a t ih =>
    cases i with
    | zero =>
      cases j with
      | zero => exact absurd rfl h
      | succ j => simp
    | succ i =>
      cases j with
      | zero => simp
      | succ j => simpa using ih i j (fun hc => h (by rw [hc]))

theorem listGetD_set_self {α : Type} (l : List α) (i : Nat) (x d : α) (h : i < l.length) :
    (l.set i x).getD i d = x := by
  induction l generalizing i with
  | nil => simp at h
  | cons a t ih =>
    cases i with
    | zero => simp
    | succ i => simpa using ih i (by simpa using h)

/-- First page payload of `_writePixelData`, as a rewrite rule. -/
theorem writePagePayloads_fst (pixels : List Nat) :
    (writePagePayloads pixels).1 = pixels.take 7946 := rfl

/-- Second page payload of `_writePixelData`, as a rewrite rule. -/
theorem writePagePayloads_snd (pixels : List Nat) :
    (writePagePayloads pixels).2 = (pixels.drop 7946).take (15552 - 7946) := rfl

/-- The pixel loop of `_fillImageInner` always throws: its first
iteration evaluates the undeclared identifier `y2`. -/
theorem innerLoop_err (buf : List Nat) (stride offset : JSNum) :
    innerLoop buf stride offset = .error .referenceError := rfl

/-- `_fillImageInner` always throws `ReferenceError` before performing
any transport action, for every key, buffer, stride and offset. -/
theorem fillImageInner_err (keyIndex : JSNum) (buf : List Nat) (stride offset : JSNum) :
    fillImageInner keyIndex buf stride offset = ([], some .referenceError) := rfl

/-- A whole-number key index between 0 and 14 passes `checkValidKeyIndex`. -/
theorem checkValidKeyIndex_nat_ok (k : Nat) (hk : k ≤ 14) :
    checkValidKeyIndex (.num (k : ℚ)) = .ok () := by
  have h1 : ¬((k : ℚ) < 0) := not_lt.mpr (by exact_mod_cast Nat.zero_le k)
  have h2 : ¬((14 : ℚ) < (k : ℚ)) := not_lt.mpr (by exact_mod_cast hk)
  simp [checkValidKeyIndex, jsLtb, jsGtb, h1, h2]

/-- If a checked operation ends in an error and its body would not pair
an error with performed actions, then no action was performed at all:
each failing check aborts with an empty action list. -/
theorem seqChecks_error_actions (cs : List (Except JSError Unit))
    (body : List DeviceAction × Option JSError) (e : JSError)
    (h : (seqChecks cs body).2 = some e) (hb : body.2 = some e → body.1 = []) :
    (seqChecks cs body).1 = [] := by
  induction cs with
  | nil => exact hb h
  | cons c cs ih =>
    cases c with
    | error e' => rfl
    | ok u => exact ih h

/-- Filling with the pattern `[0, 0, 0]` yields an all-zero buffer. -/
theorem allocPattern_zero (n : Nat) : allocPattern n [0, 0, 0] = List.replicate n 0 := by
  have hf : ∀ j : Nat, ([0, 0, 0] : List Nat).getD j 0 = 0 := by
    intro j
    rcases j with _ | _ | _ | j <;> rfl
  unfold allocPattern
  calc (List.range n).map (fun i => ([0, 0, 0] : List Nat).getD (i % [0, 0, 0].length) 0)
      = (List.range n).map (fun _ => 0) := by
        exact List.map_congr_left (fun i _ => hf _)
    _ = List.replicate (List.range n).length 0 := List.map_const' _ 0
    _ = List.replicate n 0 := by rw [List.length_range]

/-- `keyIsPressed` preserves the length of the state table. -/
theorem keyIsPressed_length (j v : Nat) (st : List KeyVal) :
    ((keyIsPressed j v st).1).length = st.length := by
  unfold keyIsPressed
  split <;> simp

/-- `keyIsPressed` for key `j` leaves every other key's entry alone. -/
theorem keyIsPressed_getD_ne (j v : Nat) (st : List KeyVal) (k : Nat) (h : j ≠ k) :
    ((keyIsPressed j v st).1).getD k (.bval false) = st.getD k (.bval false) := by
  unfold keyIsPressed
  split
  · exact listGetD_set_ne st j k _ _ h
  · rfl

/-- `keyIsPressed` for key `j` emits events about key `j` only. -/
theorem keyIsPressed_filter_ne (j v : Nat) (st : List KeyVal) (k : Nat) (h : j ≠ k) :
    ((keyIsPressed j v st).2).filter (fun e => e.key == k) = [] := by
  unfold keyIsPressed
  split
  · split <;> simp [Event.key, h]
  · rfl

/-- `handleGo` preserves the length of the state table. -/
theorem handleGo_length (data : List Nat) (L : List (Nat × Nat × Nat)) (st : List KeyVal) :
    ((handleGo data L st).1).length = st.length := by
  induction L generalizing st with
  | nil => rfl
  | cons e rest ih => simpa [handleGo] using (ih _).trans (keyIsPressed_length _ _ _)

/-- A run of `handleGo` whose scan list never mentions key `k` leaves
key `k`'s entry alone and emits no event about it. -/
theorem handleGo_untouched (data : List Nat) (L : List (Nat × Nat × Nat)) (st : List KeyVal)
    (k : Nat) (h : ∀ e ∈ L, e.1 ≠ k) :
    ((handleGo data L st).1).getD k (.bval false) = st.getD k (.bval false) ∧
      ((handleGo data L st).2).filter (fun e => e.key == k) = [] := by
  induction L generalizing st with
  | nil => exact ⟨rfl, rfl⟩
  | cons e rest ih =>
    have he : e.1 ≠ k := h e (List.mem_cons_self e rest)
    have hr : ∀ x ∈ rest, x.1 ≠ k := fun x hx => h x (List.mem_cons_of_mem e hx)
    have hstep := ih (keyIsPressed e.1 (byteAt data e.2.1 &&& e.2.2) st).1 hr
    constructor
    · calc ((handleGo data (e :: rest) st).1).getD k (.bval false)
          = ((handleGo data rest (keyIsPressed e.1 (byteAt data e.2.1 &&& e.2.2) st).1).1).getD k
              (.bval false) := rfl
        _ = ((keyIsPressed e.1 (byteAt data e.2.1 &&& e.2.2) st).1).getD k (.bval false) := hstep.1
        _ = st.getD k (.bval false) := keyIsPressed_getD_ne _ _ _ _ he
    · calc ((handleGo data (e :: rest) st).2).filter (fun x => x.key == k)
          = ((keyIsPressed e.1 (byteAt data e.2.1 &&& e.2.2) st).2).filter (fun x => x.key == k) ++
            ((handleGo data rest (keyIsPressed e.1 (byteAt data e.2.1 &&& e.2.2) st).1).2).filter
              (fun x => x.key == k) := List.filter_append _ _
        _ = [] := by rw [keyIsPressed_filter_ne _ _ _ _ he, hstep.2]; rfl

/-- Per-key effect of one `handleGo` run over a scan list that mentions
key `k` exactly once, with byte index `b` and mask `m`: the entry becomes
the masked number unless strictly equal to the stored entry, and exactly
one event is emitted in the changed case — `down` for a nonzero masked
number, `up` for zero. -/
theorem handleGo_spec (data : List Nat) (L₁ L₂ : List (Nat × Nat × Nat)) (st : List KeyVal)
    (k b m : Nat) (h1 : ∀ e ∈ L₁, e.1 ≠ k) (h2 : ∀ e ∈ L₂, e.1 ≠ k) (hk : k < st.length) :
    (((handleGo data (L₁ ++ (k, b, m) :: L₂) st).1).getD k (.bval false) =
        if KeyVal.nval (byteAt data b &&& m) = st.getD k (.bval false) then st.getD k (.bval false)
        else .nval (byteAt data b &&& m)) ∧
      (((handleGo data (L₁ ++ (k, b, m) :: L₂) st).2).filter (fun e => e.key == k) =
        if KeyVal.nval (byteAt data b &&& m) = st.getD k (.bval false) then []
        else [if byteAt data b &&& m ≠ 0 then Event.down k else Event.up k]) := by
  induction L₁ generalizing st with
  | nil =>
    have huntouched := handleGo_untouched data L₂
      (keyIsPressed k (byteAt data b &&& m) st).1 k h2
    have hhead : handleGo data ([] ++ (k, b, m) :: L₂) st =
        ((handleGo data L₂ (keyIsPressed k (byteAt data b &&& m) st).1).1,
          (keyIsPressed k (byteAt data b &&& m) st).2 ++
            (handleGo data L₂ (keyIsPressed k (byteAt data b &&& m) st).1).2) := rfl
    rw [hhead]
    by_cases hch : KeyVal.nval (byteAt data b &&& m) = st.getD k (.bval false)
    · have hkp : keyIsPressed k (byteAt data b &&& m) st = (st, []) := by
        unfold keyIsPressed
        rw [if_neg (fun hne => hne hch)]
      rw [hkp] at huntouched ⊢
      refine ⟨?_, ?_⟩
      · rw [if_pos hch]
        exact huntouched.1
      · rw [if_pos hch]
        simpa using huntouched.2
    · have hkp : keyIsPressed k (byteAt data b &&& m) st =
          (st.set k (.nval (byteAt data b &&& m)),
            [if byteAt data b &&& m ≠ 0 then Event.down k else Event.up k]) := by
        unfold keyIsPressed
        rw [if_pos hch]
      rw [hkp] at huntouched ⊢
      refine ⟨?_, ?_⟩
      · rw [if_neg hch]
        exact huntouched.1.trans (listGetD_set_self st k _ _ hk)
      · rw [if_neg hch]
        rw [List.filter_append, huntouched.2]
        split <;> simp [Event.key]
  | cons e L₁ ih =>
    have he : e.1 ≠ k := h1 e (List.mem_cons_self e L₁)
    have hr : ∀ x ∈ L₁, x.1 ≠ k := fun x hx => h1 x (List.mem_cons_of_mem e hx)
    have hlen : k < ((keyIsPressed e.1 (byteAt data e.2.1 &&& e.2.2) st).1).length := by
      rw [keyIsPressed_length]; exact hk
    have hkeep : ((keyIsPressed e.1 (byteAt data e.2.1 &&& e.2.2) st).1).getD k (.bval false) =
        st.getD k (.bval false) := keyIsPressed_getD_ne _ _ _ _ he
    have hstep := ih (keyIsPressed e.1 (byteAt data e.2.1 &&& e.2.2) st).1 hr hlen
    rw [hkeep] at hstep
    have hhead : handleGo data ((e :: L₁) ++ (k, b, m) :: L₂) st =
        ((handleGo data (L₁ ++ (k, b, m) :: L₂)
            (keyIsPressed e.1 (byteAt data e.2.1 &&& e.2.2) st).1).1,
          (keyIsPressed e.1 (byteAt data e.2.1 &&& e.2.2) st).2 ++
            (handleGo data (L₁ ++ (k, b, m) :: L₂)
              (keyIsPressed e.1 (byteAt data e.2.1 &&& e.2.2) st).1).2) := rfl
    rw [hhead]
    refine ⟨hstep.1, ?_⟩
    rw [List.filter_append, keyIsPressed_filter_ne _ _ _ _ he, hstep.2]
    rfl

/-- The key indices of the events emitted by one `handleGo` run form a
sublist of the scan list's key indices, in scan order. -/
theorem handleGo_keys_sublist (data : List Nat) (L : List (Nat × Nat × Nat)) (st : List KeyVal) :
    (((handleGo data L st).2).map Event.key).Sublist (L.map (fun e => e.1)) := by
  induction L generalizing st with
  | nil => simp [handleGo]
  | cons e rest ih =>
    have hmap : ((handleGo data (e :: rest) st).2).map Event.key =
        ((keyIsPressed e.1 (byteAt data e.2.1 &&& e.2.2) st).2).map Event.key ++
          ((handleGo data rest (keyIsPressed e.1 (byteAt data e.2.1 &&& e.2.2) st).1).2).map
            Event.key := by
      calc ((handleGo data (e :: rest) st).2).map Event.key
          = (((keyIsPressed e.1 (byteAt data e.2.1 &&& e.2.2) st).2) ++
              (handleGo data rest (keyIsPressed e.1 (byteAt data e.2.1 &&& e.2.2) st).1).2).map
              Event.key := rfl
        _ = _ := List.map_append _ _ _
    rw [hmap]
    have hev : ((keyIsPressed e.1 (byteAt data e.2.1 &&& e.2.2) st).2).map Event.key = [] ∨
        ((keyIsPressed e.1 (byteAt data e.2.1 &&& e.2.2) st).2).map Event.key = [e.1] := by
      unfold keyIsPressed
      split
      · right; split <;> rfl
      · left; rfl
    rcases hev with hev | hev <;> rw [hev]
    · exact List.Sublist.cons e.1 (ih _)
    · exact List.Sublist.cons₂ e.1 (ih _)

/-- Two reports that agree on bytes 1 and 2 are handled identically. -/
theorem handleGo_congr (d1 d2 : List Nat) (L : List (Nat × Nat × Nat)) (st : List KeyVal)
    (h : ∀ e ∈ L, byteAt d1 e.2.1 = byteAt d2 e.2.1) :
    handleGo d1 L st = handleGo d2 L st := by
  induction L generalizing st with
  | nil => rfl
  | cons e rest ih =>
    have he : byteAt d1 e.2.1 = byteAt d2 e.2.1 := h e (List.mem_cons_self e rest)
    have hr : ∀ x ∈ rest, byteAt d1 x.2.1 = byteAt d2 x.2.1 :=
      fun x hx => h x (List.mem_cons_of_mem e hx)
    show ((handleGo d1 rest (keyIsPressed e.1 (byteAt d1 e.2.1 &&& e.2.2) st).1).1,
        (keyIsPressed e.1 (byteAt d1 e.2.1 &&& e.2.2) st).2 ++
          (handleGo d1 rest (keyIsPressed e.1 (byteAt d1 e.2.1 &&& e.2.2) st).1).2) = _
    rw [he, ih _ hr]
    rfl

/-! Claim theorems. -/

/-- Claim C1.  The claimed mirrored BGR transform never happens: for
every key index 0..14 and every 15552-byte buffer, `fillImage` evaluates
the undeclared identifier `y2` on the very first pixel
(src/index.js:198), throws `ReferenceError`, and performs no transport
action, so no device-order buffer is produced at all. -/
theorem C1_fillImage_throws_referenceError (k : Nat) (hk : k ≤ 14) (buf : List Nat)
    (hlen : buf.length = 15552) :
    fillImage (.num (k : ℚ)) buf = ([], some .referenceError) := by
  rw [fillImage, checkValidKeyIndex_nat_ok k hk, seqChecks, seqChecks]
  rw [if_neg (fun h => h hlen)]
  exact fillImageInner_err _ _ _ _

/-- Claim C1, witness: key 0 with an all-zero 15552-byte buffer. -/
theorem C1_witness : fillImage (.num 0) (List.replicate 15552 0) = ([], some .referenceError) := by
  have h := C1_fillImage_throws_referenceError 0 (by norm_num) (List.replicate 15552 0)
    (List.length_replicate 15552 0)
  simpa only [Nat.cast_zero] using h

/-- Claim C2.  The length validation of `fillPanelImage` works as
claimed, but with a correct-length buffer no key is ever written: the
first `_fillImageInner` call throws `ReferenceError` (undeclared `y2`;
moreover its offset argument is already NaN because `this.ICON_SIZE` is
`undefined`), so the claimed 15 per-key writes never happen. -/
theorem C2_fillPanelImage_throws (buf : List Nat) :
    (buf.length ≠ 15552 * 15 → fillPanelImage buf = ([], some .rangeError)) ∧
    (buf.length = 15552 * 15 → fillPanelImage buf = ([], some .referenceError)) := by
  constructor
  · intro h
    rw [fillPanelImage, if_pos h]
  · intro h
    rw [fillPanelImage, if_neg (fun hne => hne h)]
    rfl

/-- Claim C2, witness: the empty buffer is rejected and a correct-length
all-zero buffer reaches the loop and throws. -/
theorem C2_witness :
    fillPanelImage [] = ([], some .rangeError) ∧
    fillPanelImage (List.replicate 233280 0) = ([], some .referenceError) := by
  constructor
  · exact (C2_fillPanelImage_throws []).1 (by norm_num)
  · exact (C2_fillPanelImage_throws _).2 (by rw [List.length_replicate])

/-- Claim C3.  The length validation of `fillImage` is as claimed
(every length other than 15552, in particular 15551 and 15553, is
rejected with a `RangeError`), but a buffer of length exactly 15552 does
not succeed: the pixel loop throws `ReferenceError` on the undeclared
`y2`. -/
theorem C3_fillImage_length_check (k : Nat) (hk : k ≤ 14) (buf : List Nat) :
    (buf.length ≠ 15552 → fillImage (.num (k : ℚ)) buf = ([], some .rangeError)) ∧
    (buf.length = 15552 → fillImage (.num (k : ℚ)) buf = ([], some .referenceError)) := by
  constructor
  · intro h
    rw [fillImage, checkValidKeyIndex_nat_ok k hk, seqChecks, seqChecks, if_pos h]
  · intro h
    rw [fillImage, checkValidKeyIndex_nat_ok k hk, seqChecks, seqChecks]
    rw [if_neg (fun hne => hne h)]
    exact fillImageInner_err _ _ _ _

/-- Claim C3, witness: key 3 with buffers of lengths 15551, 15553 and
15552. -/
theorem C3_witness :
    fillImage (.num 3) (List.replicate 15551 0) = ([], some .rangeError) ∧
    fillImage (.num 3) (List.replicate 15553 0) = ([], some .rangeError) ∧
    fillImage (.num 3) (List.replicate 15552 0) = ([], some .referenceError) := by
  refine ⟨?_, ?_, ?_⟩
  · have h := (C3_fillImage_length_check 3 (by norm_num) (List.replicate 15551 0)).1
      (by rw [List.length_replicate]; norm_num)
    simpa only [Nat.cast_ofNat] using h
  · have h := (C3_fillImage_length_check 3 (by norm_num) (List.replicate 15553 0)).1
      (by rw [List.length_replicate]; norm_num)
    simpa only [Nat.cast_ofNat] using h
  · have h := (C3_fillImage_length_check 3 (by norm_num) (List.replicate 15552 0)).2
      (List.length_replicate 15552 0)
    simpa only [Nat.cast_ofNat] using h

/-- Claim C4, counterexample.  From a steady all-released numeric state,
a report setting the bits of keys 3 and 4 emits key 4's event first:
the handler processes each row from its highest key index down
(src/index.js:104-108), so the claimed ascending order (key 3 before
key 4) is false. -/
theorem C4_counterexample :
    (handleData [0, 0x18, 0] zeroNumState).2 = [Event.down 4, Event.down 3] := by decide

/-- Claim C4, amended.  Events from one report are emitted in the fixed
stable processing order of the handler — rows ascending, key indices
descending within each row: the emitted keys always form a sublist of
`[4, 3, 2, 1, 0, 9, 8, 7, 6, 5, 14, 13, 12, 11, 10]`. -/
theorem C4_event_order (data : List Nat) (st : List KeyVal) :
    (((handleData data st).2).map Event.key).Sublist
      [4, 3, 2, 1, 0, 9, 8, 7, 6, 5, 14, 13, 12, 11, 10] :=
  handleGo_keys_sublist data scanOrder st

/-- Claim C5, counterexample.  On the very first report (all keys
released, a well-formed 3-byte report of zeros) every key emits an `up`
event: the stored entries are the boolean `false`, the decoded values
are the number 0, and JavaScript's strict `!==` treats them as
different — the claim says keys decoded as released on the first report
emit no event. -/
theorem C5_counterexample :
    (handleData [0, 0, 0] initKeyState).2 =
      [Event.up 4, Event.up 3, Event.up 2, Event.up 1, Event.up 0,
       Event.up 9, Event.up 8, Event.up 7, Event.up 6, Event.up 5,
       Event.up 14, Event.up 13, Event.up 12, Event.up 11, Event.up 10] := by decide

/-- Claim C5, amended.  Per key and report: the handler stores the raw
masked number and compares with strict equality (under which a number
never equals the initially stored boolean `false`).  If the masked
number strictly equals the stored entry, the entry is unchanged and no
event for that key is emitted; otherwise the entry becomes the masked
number and exactly one event is emitted — `down` if it is nonzero, `up`
if it is zero.  Consequently the claimed edge behaviour holds from the
second report on, but on the very first report every key emits one
event (`up` if its bit is clear). -/
theorem C5_per_key (data : List Nat) (st : List KeyVal) (k : Nat)
    (hlen : st.length = 15) (hk : k < 15) :
    (((handleData data st).1).getD k (.bval false) =
        if KeyVal.nval (maskedVal data k) = st.getD k (.bval false) then st.getD k (.bval false)
        else .nval (maskedVal data k)) ∧
      (((handleData data st).2).filter (fun e => e.key == k) =
        if KeyVal.nval (maskedVal data k) = st.getD k (.bval false) then []
        else [if maskedVal data k ≠ 0 then Event.down k else Event.up k]) := by
  interval_cases k
  · exact handleGo_spec data [(4, 1, 16), (3, 1, 8), (2, 1, 4), (1, 1, 2)]
      [(9, 2, 2), (8, 2, 1), (7, 1, 128), (6, 1, 64), (5, 1, 32), (14, 2, 64), (13, 2, 32),
       (12, 2, 16), (11, 2, 8), (10, 2, 4)] st 0 1 1 (by decide) (by decide) (by omega)
  · exact handleGo_spec data [(4, 1, 16), (3, 1, 8), (2, 1, 4)]
      [(0, 1, 1), (9, 2, 2), (8, 2, 1), (7, 1, 128), (6, 1, 64), (5, 1, 32), (14, 2, 64),
       (13, 2, 32), (12, 2, 16), (11, 2, 8), (10, 2, 4)] st 1 1 2 (by decide) (by decide)
      (by omega)
  · exact handleGo_spec data [(4, 1, 16), (3, 1, 8)]
      [(1, 1, 2), (0, 1, 1), (9, 2, 2), (8, 2, 1), (7, 1, 128), (6, 1, 64), (5, 1, 32),
       (14, 2, 64), (13, 2, 32), (12, 2, 16), (11, 2, 8), (10, 2, 4)] st 2 1 4 (by decide)
      (by decide) (by omega)
  · exact handleGo_spec data [(4, 1, 16)]
      [(2, 1, 4), (1, 1, 2), (0, 1, 1), (9, 2, 2), (8, 2, 1), (7, 1, 128), (6, 1, 64),
       (5, 1, 32), (14, 2, 64), (13, 2, 32), (12, 2, 16), (11, 2, 8), (10, 2, 4)] st 3 1 8
      (by decide) (by decide) (by omega)
  · exact handleGo_spec data []
      [(3, 1, 8), (2, 1, 4), (1, 1, 2), (0, 1, 1), (9, 2, 2), (8, 2, 1), (7, 1, 128),
       (6, 1, 64), (5, 1, 32), (14, 2, 64), (13, 2, 32), (12, 2, 16), (11, 2, 8), (10, 2, 4)]
      st 4 1 16 (by decide) (by decide) (by omega)
  · exact handleGo_spec data
      [(4, 1, 16), (3, 1, 8), (2, 1, 4), (1, 1, 2), (0, 1, 1), (9, 2, 2), (8, 2, 1),
       (7, 1, 128), (6, 1, 64)]
      [(14, 2, 64), (13, 2, 32), (12, 2, 16), (11, 2, 8), (10, 2, 4)] st 5 1 32 (by decide)
      (by decide) (by omega)
  · exact handleGo_spec data
      [(4, 1, 16), (3, 1, 8), (2, 1, 4), (1, 1, 2), (0, 1, 1), (9, 2, 2), (8, 2, 1),
       (7, 1, 128)]
      [(5, 1, 32), (14, 2, 64), (13, 2, 32), (12, 2, 16), (11, 2, 8), (10, 2, 4)] st 6 1 64
      (by decide) (by decide) (by omega)
  · exact handleGo_spec data
      [(4, 1, 16), (3, 1, 8), (2, 1, 4), (1, 1, 2), (0, 1, 1), (9, 2, 2), (8, 2, 1)]
      [(6, 1, 64), (5, 1, 32), (14, 2, 64), (13, 2, 32), (12, 2, 16), (11, 2, 8), (10, 2, 4)]
      st 7 1 128 (by decide) (by decide) (by omega)
  · exact handleGo_spec data
      [(4, 1, 16), (3, 1, 8), (2, 1, 4), (1, 1, 2), (0, 1, 1), (9, 2, 2)]
      [(7, 1, 128), (6, 1, 64), (5, 1, 32), (14, 2, 64), (13, 2, 32), (12, 2, 16), (11, 2, 8),
       (10, 2, 4)] st 8 2 1 (by decide) (by decide) (by omega)
  · exact handleGo_spec data [(4, 1, 16), (3, 1, 8), (2, 1, 4), (1, 1, 2), (0, 1, 1)]
      [(8, 2, 1), (7, 1, 128), (6, 1, 64), (5, 1, 32), (14, 2, 64), (13, 2, 32), (12, 2, 16),
       (11, 2, 8), (10, 2, 4)] st 9 2 2 (by decide) (by decide) (by omega)
  · exact handleGo_spec data
      [(4, 1, 16), (3, 1, 8), (2, 1, 4), (1, 1, 2), (0, 1, 1), (9, 2, 2), (8, 2, 1),
       (7, 1, 128), (6, 1, 64), (5, 1, 32), (14, 2, 64), (13, 2, 32), (12, 2, 16), (11, 2, 8)]
      [] st 10 2 4 (by decide) (by decide) (by omega)
  · exact handleGo_spec data
      [(4, 1, 16), (3, 1, 8), (2, 1, 4), (1, 1, 2), (0, 1, 1), (9, 2, 2), (8, 2, 1),
       (7, 1, 128), (6, 1, 64), (5, 1, 32), (14, 2, 64), (13, 2, 32), (12, 2, 16)]
      [(10, 2, 4)] st 11 2 8 (by decide) (by decide) (by omega)
  · exact handleGo_spec data
      [(4, 1, 16), (3, 1, 8), (2, 1, 4), (1, 1, 2), (0, 1, 1), (9, 2, 2), (8, 2, 1),
       (7, 1, 128), (6, 1, 64), (5, 1, 32), (14, 2, 64), (13, 2, 32)]
      [(11, 2, 8), (10, 2, 4)] st 12 2 16 (by decide) (by decide) (by omega)
  · exact handleGo_spec data
      [(4, 1, 16), (3, 1, 8), (2, 1, 4), (1, 1, 2), (0, 1, 1), (9, 2, 2), (8, 2, 1),
       (7, 1, 128), (6, 1, 64), (5, 1, 32), (14, 2, 64)]
      [(12, 2, 16), (11, 2, 8), (10, 2, 4)] st 13 2 32 (by decide) (by decide) (by omega)
  · exact handleGo_spec data
      [(4, 1, 16), (3, 1, 8), (2, 1, 4), (1, 1, 2), (0, 1, 1), (9, 2, 2), (8, 2, 1),
       (7, 1, 128), (6, 1, 64), (5, 1, 32)]
      [(13, 2, 32), (12, 2, 16), (11, 2, 8), (10, 2, 4)] st 14 2 64 (by decide) (by decide)
      (by omega)

/-- Claim C5 amended, witness: from the initial state, a report with key
4's bit set stores the number 0x10 for key 4 and emits exactly one
`down` event for it. -/
theorem C5_witness :
    (((handleData [0, 0x10, 0] initKeyState).1).getD 4 (.bval false) =
        if KeyVal.nval (maskedVal [0, 0x10, 0] 4) = initKeyState.getD 4 (.bval false) then
          initKeyState.getD 4 (.bval false)
        else .nval (maskedVal [0, 0x10, 0] 4)) ∧
      (((handleData [0, 0x10, 0] initKeyState).2).filter (fun e => e.key == 4) =
        if KeyVal.nval (maskedVal [0, 0x10, 0] 4) = initKeyState.getD 4 (.bval false) then []
        else [if maskedVal [0, 0x10, 0] 4 ≠ 0 then Event.down 4 else Event.up 4]) :=
  C5_per_key [0, 0x10, 0] initKeyState 4 (by decide) (by decide)

/-- Claim C6, counterexample.  A malformed 1-byte report is not reported
as an error condition: the handler reads the missing bytes as
`undefined`, masks them to 0, and silently processes the report as
all-released — here, from a steady all-zero numeric state, nothing at
all happens and no error is surfaced anywhere (the embedded handler is
total; the only `error` events of the driver come from the transport
layer, never from report processing). -/
theorem C6_counterexample : handleData [7] zeroNumState = (zeroNumState, []) := by decide

/-- Claim C6, amended.  Report processing never raises an error for any
report, well-formed or short: a too-short report behaves exactly as if
the missing bytes were 0. -/
theorem C6_short_report_as_zero (data : List Nat) (st : List KeyVal) :
    handleData data st = handleData [0, byteAt data 1, byteAt data 2] st := by
  apply handleGo_congr
  intro e he
  fin_cases he <;> rfl

/-- Claim C7.  Any device-order buffer of length 15552 is split into a
page-1 payload of exactly its first 7946 bytes and a page-2 payload of
exactly the remaining 7606 bytes; and the `fillColor` device buffer —
the `(b, g, r)` triple repeated — yields a page-1 payload of 7946 bytes
of the repeated pattern and a page-2 payload of the following 7606
bytes of the same repeated pattern. -/
theorem C7_page_split (pixels : List Nat) (hlen : pixels.length = 15552) (r g b : Nat) :
    ((writePagePayloads pixels).1 = pixels.take 7946 ∧
      ((writePagePayloads pixels).1).length = 7946 ∧
      (writePagePayloads pixels).2 = pixels.drop 7946 ∧
      ((writePagePayloads pixels).2).length = 7606) ∧
    ((writePagePayloads (allocPattern 15552 [b, g, r])).1 =
        (List.range 7946).map (fun i => ([b, g, r] : List Nat).getD (i % 3) 0) ∧
      (writePagePayloads (allocPattern 15552 [b, g, r])).2 =
        (List.range 7606).map (fun i => ([b, g, r] : List Nat).getD ((7946 + i) % 3) 0)) := by
  constructor
  · refine ⟨rfl, ?_, ?_, ?_⟩
    · rw [writePagePayloads]
      rw [List.length_take, hlen]
      norm_num
    · rw [writePagePayloads]
      apply List.take_of_length_le
      rw [List.length_drop, hlen]
    · rw [writePagePayloads]
      rw [List.length_take, List.length_drop, hlen]
      norm_num
  · have hsplit : List.range 15552 = List.range 7946 ++ (List.range 7606).map (fun i => 7946 + i) := by
      rw [show (15552 : Nat) = 7946 + 7606 from rfl, List.range_add]
    constructor
    · rw [writePagePayloads_fst]
      rw [allocPattern, ← List.map_take, List.take_range]
      rw [show (7946 ⊓ 15552 : Nat) = 7946 from by norm_num]
      exact List.map_congr_left (fun i _ => rfl)
    · rw [writePagePayloads_snd]
      rw [allocPattern, ← List.map_drop, hsplit, List.drop_left' (List.length_range 7946),
        List.map_map]
      rw [List.take_of_length_le (by simp)]
      exact List.map_congr_left (fun i _ => rfl)

/-- Claim C7, witness: a concrete 15552-byte buffer of sevens and the
color (1, 2, 3). -/
theorem C7_witness :
    ((writePagePayloads (List.replicate 15552 7)).1 = (List.replicate 15552 7).take 7946 ∧
      ((writePagePayloads (List.replicate 15552 7)).1).length = 7946 ∧
      (writePagePayloads (List.replicate 15552 7)).2 = (List.replicate 15552 7).drop 7946 ∧
      ((writePagePayloads (List.replicate 15552 7)).2).length = 7606) ∧
    ((writePagePayloads (allocPattern 15552 [3, 2, 1])).1 =
        (List.range 7946).map (fun i => ([3, 2, 1] : List Nat).getD (i % 3) 0) ∧
      (writePagePayloads (allocPattern 15552 [3, 2, 1])).2 =
        (List.range 7606).map (fun i => ([3, 2, 1] : List Nat).getD ((7946 + i) % 3) 0)) :=
  C7_page_split (List.replicate 15552 7) (List.length_replicate 15552 7) 1 2 3

/-- Claim C8.  For every key index 0..14, `clearKey` and
`fillColor(keyIndex, 0, 0, 0)` produce identical results — three
identical transport actions built from the same all-zero 15552-byte
device buffer — and the shared page-1 and page-2 payloads are all-zero
(7946 and 7606 zero bytes respectively). -/
theorem C8_clearKey_eq_black (k : Nat) (hk : k ≤ 14) :
    clearKey (.num (k : ℚ)) = fillColor (.num (k : ℚ)) (.num 0) (.num 0) (.num 0) ∧
    (writePagePayloads (List.replicate 15552 0)).1 = List.replicate 7946 0 ∧
    (writePagePayloads (List.replicate 15552 0)).2 = List.replicate 7606 0 := by
  have h0 : checkRGBValue (.num 0) = .ok () := by
    norm_num [checkRGBValue, jsLtb, jsGtb]
  have hb : toByte (.num 0) = 0 := rfl
  refine ⟨?_, ?_, ?_⟩
  · rw [clearKey, fillColor, checkValidKeyIndex_nat_ok k hk, h0, hb, allocPattern_zero]
    rfl
  · rw [writePagePayloads_fst]
    rw [List.take_replicate]
    norm_num
  · rw [writePagePayloads_snd]
    rw [List.drop_replicate, List.take_replicate]
    norm_num

/-- Claim C8, witness: key 5. -/
theorem C8_witness :
    clearKey (.num 5) = fillColor (.num 5) (.num 0) (.num 0) (.num 0) ∧
    (writePagePayloads (List.replicate 15552 0)).1 = List.replicate 7946 0 ∧
    (writePagePayloads (List.replicate 15552 0)).2 = List.replicate 7606 0 := by
  have h := C8_clearKey_eq_black 5 (by norm_num)
  simpa only [Nat.cast_ofNat] using h

/-- Claim C9.  For every public codec operation, a validation failure is
local: whenever the operation ends in a validation error (`TypeError` or
`RangeError` from the argument checks), no transport action at all was
performed, so the operation is never partially applied. -/
theorem C9_validation_before_io :
    (∀ (k r g b : JSNum) (e : JSError), (fillColor k r g b).2 = some e →
        e.isValidation = true → (fillColor k r g b).1 = []) ∧
    (∀ (k : JSNum) (buf : List Nat) (e : JSError), (fillImage k buf).2 = some e →
        e.isValidation = true → (fillImage k buf).1 = []) ∧
    (∀ (buf : List Nat) (e : JSError), (fillPanelImage buf).2 = some e →
        e.isValidation = true → (fillPanelImage buf).1 = []) ∧
    (∀ (k : JSNum) (e : JSError), (clearKey k).2 = some e →
        e.isValidation = true → (clearKey k).1 = []) ∧
    (∀ (p : JSNum) (e : JSError), (setBrightness p).2 = some e →
        e.isValidation = true → (setBrightness p).1 = []) := by
  refine ⟨?_, ?_, ?_, ?_, ?_⟩
  · intro k r g b e h _
    exact seqChecks_error_actions _ _ e h (fun hc => Option.noConfusion hc)
  · intro k buf e h _
    refine seqChecks_error_actions _ _ e h ?_
    intro _
    by_cases hl : buf.length ≠ 15552
    · rw [if_pos hl]
    · rw [if_neg hl, fillImageInner_err]
  · intro buf e h _
    by_cases hl : buf.length ≠ 15552 * 15
    · rw [fillPanelImage, if_pos hl]
    · rw [fillPanelImage, if_neg hl]
      rfl
  · intro k e h _
    exact seqChecks_error_actions _ _ e h (fun hc => Option.noConfusion hc)
  · intro p e h _
    by_cases hc : (jsLtb p (.num 0) || jsGtb p (.num 100)) = true
    · rw [setBrightness, if_pos hc]
    · rw [setBrightness, if_neg hc] at h
      exact Option.noConfusion h

/-- Claim C9, witness: `fillColor` with key index 20 fails its key-index
check and performs no action; `setBrightness 101` fails its range check
and performs no action. -/
theorem C9_witness :
    (fillColor (.num 20) (.num 0) (.num 0) (.num 0)).1 = [] ∧
    (setBrightness (.num 101)).1 = [] := by
  constructor
  · exact C9_validation_before_io.1 (.num 20) (.num 0) (.num 0) (.num 0) .typeError
      (by norm_num [fillColor, seqChecks, checkValidKeyIndex, jsLtb, jsGtb]) rfl
  · exact C9_validation_before_io.2.2.2.2 (.num 101) .rangeError
      (by norm_num [setBrightness, jsLtb, jsGtb]) rfl

/-- Claim C10.  Each range validation rejects a value exactly when the
JavaScript comparison `v < lower || v > upper` holds, so it rejects only
actual numbers outside the range: the non-integers 7.5 (key index) and
50.5 (brightness) inside the range pass, and NaN passes every check
(both comparisons are false), proceeding to encoding. -/
theorem C10_range_checks :
    (∀ v : JSNum,
      (checkRGBValue v = .error .typeError ↔ ∃ q : ℚ, v = .num q ∧ (q < 0 ∨ 255 < q)) ∧
      (checkValidKeyIndex v = .error .typeError ↔ ∃ q : ℚ, v = .num q ∧ (q < 0 ∨ 14 < q)) ∧
      ((setBrightness v).2 = some .rangeError ↔ ∃ q : ℚ, v = .num q ∧ (q < 0 ∨ 100 < q))) ∧
    checkValidKeyIndex (.num (15 / 2)) = .ok () ∧
    (fillColor (.num (15 / 2)) (.num 0) (.num 0) (.num 0)).2 = none ∧
    setBrightness (.num (101 / 2)) = ([.sendFeatureReport [0x00, 0x11, 50]], none) ∧
    checkRGBValue .nan = .ok () ∧
    checkValidKeyIndex .nan = .ok () ∧
    setBrightness .nan = ([.sendFeatureReport [0x00, 0x11, 0]], none) := by
  refine ⟨?_, ?_, ?_, ?_, rfl, rfl, rfl⟩
  · intro v
    refine ⟨?_, ?_, ?_⟩
    · cases v with
      | nan => simp [checkRGBValue, jsLtb, jsGtb]
      | num q =>
        by_cases hq : q < 0 ∨ 255 < q
        · rw [checkRGBValue, if_pos (by simpa [jsLtb, jsGtb] using hq)]
          simp [hq]
        · rw [checkRGBValue, if_neg (by simpa [jsLtb, jsGtb] using hq)]
          simp [hq]
    · cases v with
      | nan => simp [checkValidKeyIndex, jsLtb, jsGtb]
      | num q =>
        by_cases hq : q < 0 ∨ 14 < q
        · rw [checkValidKeyIndex, if_pos (by simpa [jsLtb, jsGtb] using hq)]
          simp [hq]
        · rw [checkValidKeyIndex, if_neg (by simpa [jsLtb, jsGtb] using hq)]
          simp [hq]
    · cases v with
      | nan => simp [setBrightness, jsLtb, jsGtb]
      | num q =>
        by_cases hq : q < 0 ∨ 100 < q
        · rw [setBrightness, if_pos (by simpa [jsLtb, jsGtb] using hq)]
          simp [hq]
        · rw [setBrightness, if_neg (by simpa [jsLtb, jsGtb] using hq)]
          simp [hq]
  · norm_num [checkValidKeyIndex, jsLtb, jsGtb]
  · norm_num [fillColor, seqChecks, checkValidKeyIndex, checkRGBValue, jsLtb, jsGtb]
  · norm_num [setBrightness, jsLtb, jsGtb, toByte, jsTrunc]
    decide

end Infinitton
